import Mathlib

/-!
Shallow embedding of `pj_krihs_sentiment.py` (KRIHS real-estate sentiment
collector).  Text is modelled as `List Char`, machine integers as `Nat`/`Int`.
Fallible operations (Python exceptions) are modelled with `Option`/`Except`.
-/

deriving instance DecidableEq for Except

/-! ## Basic text helpers (embedding Python string primitives used by the code) -/

/-- Decimal digits of a natural number, most significant first (Python `str(n)`
for non-negative `n`). -/
def natToStr (n : Nat) : List Char := Nat.toDigits 10 n

/-- Python `f"{n:02d}"` for a non-negative integer: pad with a leading zero
when the number has a single digit. -/
def pad2 (n : Nat) : List Char := if n < 10 then '0' :: natToStr n else natToStr n

/-- `pat` is a prefix of the second list (Python `str.startswith`). -/
def leadsWith : List Char → List Char → Bool
  | [], _ => true
  | _ :: _, [] => false
  | a :: pa, b :: l => if a = b then leadsWith pa l else false

/-- `pat` occurs as a contiguous substring (CSS `[id*='…']`, Python `in`). -/
def hasSub (pat : List Char) : List Char → Bool
  | [] => decide (pat = [])
  | c :: rest => leadsWith pat (c :: rest) || hasSub pat rest

/-- Python `str.strip`: drop whitespace from both ends. -/
def stripL (l : List Char) : List Char :=
  ((l.dropWhile Char.isWhitespace).reverse.dropWhile Char.isWhitespace).reverse

/-- Python `alt_text.replace(" ", "")`: remove every space character. -/
def stripSpaces (l : List Char) : List Char := l.filter (fun c => c ≠ ' ')

/-! ## 1. Dataset registry and URL builder (`DATASETS`, `BASE`, `build_url`) -/

structure Dataset where
  path : List Char
  default_item : Nat
deriving DecidableEq

/-- The `DATASETS` dict: five fixed keys. -/
def DATASETS (key : List Char) : Option Dataset :=
  if key = "market_consume".toList then some ⟨"SystemIntro".toList, 2⟩
  else if key = "house_consume".toList then some ⟨"Mind_House".toList, 7⟩
  else if key = "house_sale".toList then some ⟨"Mind_House_Cur".toList, 12⟩
  else if key = "house_rent".toList then some ⟨"Mind_Rent_Cur".toList, 14⟩
  else if key = "land_consume".toList then some ⟨"Mind_Land".toList, 6⟩
  else none

def BASE : List Char := "https://kremap.krihs.re.kr/menu2".toList

/-- Python truthiness of `item_cd or ds.default_item`: an override of `0` (or
`None`) falls back to the default. -/
def itemOr (o : Option Nat) (dflt : Nat) : Nat :=
  match o with
  | some v => if v = 0 then dflt else v
  | none => dflt

/-- `urllib.parse.urlencode` on the parameter list.  Every value the program
passes consists of unreserved characters, so encoding is plain
`k=v` joined by `&`. -/
def urlencodeL (params : List (List Char × List Char)) : List Char :=
  match params with
  | [] => []
  | [(k, v)] => k ++ '=' :: v
  | (k, v) :: rest => k ++ '=' :: v ++ '&' :: urlencodeL rest

/-- Body of `build_url` once the dataset is resolved; the `jin=Jindan` marker
is inserted into the dict before `item_cd`, exactly as in the source. -/
def build_url_ds (ds : Dataset) (year month : Nat) (item_cd : Option Nat) : List Char :=
  let params := [("area_cd".toList, "11".toList),
                 ("Gbn".toList, "MONTH".toList),
                 ("year".toList, natToStr year),
                 ("month".toList, pad2 month)]
  let params := if ds.path = "SystemIntro".toList
                then params ++ [("jin".toList, "Jindan".toList)] else params
  let params := params ++ [("item_cd".toList, natToStr (itemOr item_cd ds.default_item))]
  BASE ++ '/' :: ds.path ++ '?' :: urlencodeL params

/-- `build_url`: `DATASETS[dataset_key]` raises `KeyError` on an unknown key
(modelled as `none`); no validation is performed on `year`/`month`. -/
def build_url (dataset_key : List Char) (year month : Nat) (item_cd : Option Nat) :
    Option (List Char) :=
  (DATASETS dataset_key).map (fun ds => build_url_ds ds year month item_cd)

/-! ## 2. Region map (`SEOUL_GU_MAP`) -/

def SEOUL_GU_LIST : List (List Char × (List Char × List Char)) :=
  [("종로구".toList, ("11110".toList, "jongro".toList)),
   ("중구".toList, ("11140".toList, "jung".toList)),
   ("용산구".toList, ("11170".toList, "yongsan".toList)),
   ("성동구".toList, ("11200".toList, "seongdong".toList)),
   ("광진구".toList, ("11215".toList, "gwangjin".toList)),
   ("동대문구".toList, ("11230".toList, "dongdaemun".toList)),
   ("중랑구".toList, ("11260".toList, "jungrang".toList)),
   ("성북구".toList, ("11290".toList, "seongbuk".toList)),
   ("강북구".toList, ("11305".toList, "gangbok".toList)),
   ("도봉구".toList, ("11320".toList, "dobong".toList)),
   ("노원구".toList, ("11350".toList, "nowon".toList)),
   ("은평구".toList, ("11380".toList, "eunpyeung".toList)),
   ("서대문구".toList, ("11410".toList, "seodaemun".toList)),
   ("마포구".toList, ("11440".toList, "mapo".toList)),
   ("양천구".toList, ("11470".toList, "yangcheon".toList)),
   ("강서구".toList, ("11500".toList, "gangseo".toList)),
   ("구로구".toList, ("11530".toList, "guro".toList)),
   ("금천구".toList, ("11545".toList, "geumcheon".toList)),
   ("영등포구".toList, ("11560".toList, "yeongdeungpo".toList)),
   ("동작구".toList, ("11590".toList, "dongjak".toList)),
   ("관악구".toList, ("11620".toList, "gwanak".toList)),
   ("서초구".toList, ("11650".toList, "seocho".toList)),
   ("강남구".toList, ("11680".toList, "gangnam".toList)),
   ("송파구".toList, ("11710".toList, "songpa".toList)),
   ("강동구".toList, ("11740".toList, "gangdong".toList))]

/-- `SEOUL_GU_MAP.get(name)`: lookup in the static district table. -/
def SEOUL_GU_MAP (k : List Char) : Option (List Char × List Char) :=
  (SEOUL_GU_LIST.find? (fun e => decide (e.1 = k))).map (fun e => e.2)

/-! ## 3. Icon scorer (`score_weather`) -/

/-- Value of a decimal digit character (the regex class `\d`). -/
def digitVal (c : Char) : Option Nat :=
  if 48 ≤ c.toNat ∧ c.toNat ≤ 57 then some (c.toNat - 48) else none

/-- Try to match `([+-])(\d)단계` at the head of the list. -/
def stepAt (l : List Char) : Option (Int × Nat) :=
  match l with
  | c :: d :: '단' :: '계' :: _ =>
    if c = '+' ∨ c = '-' then
      match digitVal d with
      | some v => some (if c = '-' then (-1 : Int) else 1, v)
      | none => none
    else none
  | _ => none

/-- `re.search(r"([+-])(\d)단계", alt)`: leftmost match of the pattern. -/
def findStep : List Char → Option (Int × Nat)
  | [] => none
  | c :: rest =>
    match stepAt (c :: rest) with
    | some r => some r
    | none => findStep rest

inductive Phase where
  | contraction
  | expansion
  | stability
deriving DecidableEq

/-- Leading phase token of the (space-stripped) descriptor:
수축 / 확장 / 안정, in the order the source tests them. -/
def phaseOf (alt : List Char) : Option Phase :=
  if leadsWith "수축".toList alt then some .contraction
  else if leadsWith "확장".toList alt then some .expansion
  else if leadsWith "안정".toList alt then some .stability
  else none

/-- `score_weather`: descriptor text → signed score, `none` when the text is
empty or its phase is unrecognized. -/
def score_weather (alt_text : List Char) : Option Int :=
  if alt_text = [] then none
  else
    let alt := stripSpaces alt_text
    let sgst := (findStep alt).getD (0, 0)
    match phaseOf alt with
    | some .contraction => some (-((sgst.2 : Int) + 1))
    | some .expansion => some ((sgst.2 : Int) + 1)
    | some .stability => some (sgst.1 * (sgst.2 : Int))
    | none => none

/-! ## 4. Abstract rendered page and table parser (`parse_table_icons`)

The page is abstracted as the capability the code actually uses: tables
(with their `id` attribute), their `tr` rows, each row's `td` inner texts
and its `img` `alt` attributes in document order. -/

structure Img where
  alt : Option (List Char)
deriving DecidableEq

structure RowEl where
  tds : List (List Char)
  imgs : List Img
deriving DecidableEq

structure TableEl where
  id : List Char
  trs : List RowEl
deriving DecidableEq

structure PageT where
  tables : List TableEl
deriving DecidableEq

/-- `page.locator("table[id*='GridView']")`: tables whose id contains
`GridView`. -/
def candidates (p : PageT) : List TableEl :=
  p.tables.filter (fun t => hasSub "GridView".toList t.id)

/-- `max(range(len(sizes)), key=lambda i: sizes[i])`: index of the first
maximal element (Python `max` keeps the first of equal keys). -/
def argmax_fst : List Nat → Nat
  | [] => 0
  | v :: rest => if rest.getD (argmax_fst rest) 0 > v then argmax_fst rest + 1 else 0

/-- Non-empty stripped `alt` attributes of a row's images, in document order
(`(img.get_attribute("alt") or "").strip()`, keeping truthy values). -/
def collectAlts : List Img → List (List Char)
  | [] => []
  | im :: rest =>
    if stripL (im.alt.getD []) = [] then collectAlts rest
    else stripL (im.alt.getD []) :: collectAlts rest

/-- `alts[0] if len(alts) >= 1 else ""`. -/
def weatherOf (imgs : List Img) : List Char := (collectAlts imgs).headD []

/-- `alts[-1] if len(alts) >= 2 else ""`. -/
def momOf (imgs : List Img) : List Char :=
  if 2 ≤ (collectAlts imgs).length then (collectAlts imgs).getLastD [] else []

/-- Python dict assignment `data[region] = v`: replace in place when the key
exists (keeping its position), append otherwise. -/
def dictInsert (k : List Char) (v : List Char × List Char)
    (d : List (List Char × (List Char × List Char))) :
    List (List Char × (List Char × List Char)) :=
  if d.any (fun e => decide (e.1 = k)) then
    d.map (fun e => if e.1 = k then (k, v) else e)
  else d ++ [(k, v)]

/-- The row loop of `parse_table_icons` over the selected table's rows. -/
def parse_rows : List RowEl → List (List Char × (List Char × List Char)) →
    List (List Char × (List Char × List Char))
  | [], d => d
  | r :: rest, d =>
    if r.tds.length < 2 then parse_rows rest d
    else if stripL (r.tds.headD []) = [] ∨ stripL (r.tds.headD []) = "지역명".toList then
      parse_rows rest d
    else
      parse_rows rest
        (dictInsert (stripL (r.tds.headD [])) (weatherOf r.imgs, momOf r.imgs) d)

/-- A table element used only as the (unreachable) default of a checked
index access. -/
def dummyTable : TableEl := ⟨[], []⟩

/-- Index of the table `parse_table_icons` selects:
`max(range(len(sizes)), key=lambda i: sizes[i])`. -/
def selIdx (p : PageT) : Nat :=
  argmax_fst ((candidates p).map (fun t => t.trs.length))

/-- `parse_table_icons`: pick the candidate table with the most rows (first
wins ties) and run the row loop; empty mapping when no candidate exists
(`if tables.count() == 0: return data`). -/
def parse_table_icons (p : PageT) : List (List Char × (List Char × List Char)) :=
  if candidates p = [] then []
  else parse_rows ((candidates p).getD (selIdx p) dummyTable).trs []

/-! ## 5. Period utilities (`month_iter`, `next_month`) -/

/-- Python tuple comparison `(y, m) <= (ey, em)`: lexicographic. -/
def perLe (a b : Nat × Nat) : Bool :=
  decide (a.1 < b.1) || (decide (a.1 = b.1) && decide (a.2 ≤ b.2))

/-- `next_month`: increment the month, rolling the year when it passes 12. -/
def next_month (year month : Nat) : Nat × Nat :=
  if month + 1 > 12 then (year + 1, 1) else (year, month + 1)

/-- `month_iter`: all periods from `ym` while `≤ eym` (lexicographically),
stepping by `next_month`. -/
def month_iter (ym eym : Nat × Nat) : List (Nat × Nat) :=
  if perLe ym eym then ym :: month_iter (next_month ym.1 ym.2) eym else []
termination_by (eym.1 + 1 - ym.1) * 13 + (12 - min ym.2 12)
decreasing_by
  simp only [perLe, Bool.or_eq_true, Bool.and_eq_true, decide_eq_true_eq] at *
  unfold next_month
  split <;> simp <;> omega

/-! ## 6. Collector (`collect`) and incremental planner (`collect_incremental`) -/

inductive CErr where
  /-- `KeyError` from `DATASETS[dataset_key]` (the spec's UnknownDatasetError). -/
  | keyError
  /-- an exception raised by `page.goto`/rendering (FetchError / RenderTimeout) -/
  | fetchError (msg : List Char)
deriving DecidableEq

/-- One persisted observation row, with the exact fields the code builds. -/
structure ObsRow where
  dataset : List Char
  item_cd : Nat
  year : Nat
  month : Nat
  region_name : List Char
  region_code : List Char
  region_alias : List Char
  weather : List Char
  weather_score : Option Int
  mom : List Char
  url : List Char
deriving DecidableEq

/-- The row-assembly loop body: one `ObsRow` per (region, descriptors) pair
of the parsed table. -/
def rowsOf (dataset_key : List Char) (dflt : Nat) (item_cd : Option Nat)
    (y m : Nat) (url : List Char)
    (tbl : List (List Char × (List Char × List Char))) : List ObsRow :=
  tbl.map (fun e =>
    let ra := (SEOUL_GU_MAP e.1).getD ([], [])
    { dataset := dataset_key
      item_cd := itemOr item_cd dflt
      year := y
      month := m
      region_name := e.1
      region_code := ra.1
      region_alias := ra.2
      weather := e.2.1
      weather_score := score_weather e.2.1
      mom := e.2.2
      url := url })

/-- Processing of one period inside `collect`'s loop: build the URL
(`KeyError` propagates), fetch/render the page (an exception propagates —
the `try`/`finally` has no `except` clause), parse and assemble rows. -/
def collectPeriod (fetch : Nat → Nat → Except (List Char) PageT)
    (dataset_key : List Char) (item_cd : Option Nat) (ym : Nat × Nat) :
    Except CErr (List ObsRow) :=
  match DATASETS dataset_key with
  | none => .error .keyError
  | some ds =>
    let url := build_url_ds ds ym.1 ym.2 item_cd
    match fetch ym.1 ym.2 with
    | .error e => .error (.fetchError e)
    | .ok page =>
      .ok (rowsOf dataset_key ds.default_item item_cd ym.1 ym.2 url
            (parse_table_icons page))

/-- The `for y, m in month_iter(...)` loop: accumulate rows; any period
error aborts the whole loop (exceptions propagate out of the `for`). -/
def collectLoop (fetch : Nat → Nat → Except (List Char) PageT)
    (dataset_key : List Char) (item_cd : Option Nat) :
    List (Nat × Nat) → Except CErr (List ObsRow)
  | [] => .ok []
  | ym :: rest =>
    match collectPeriod fetch dataset_key item_cd ym with
    | .error e => .error e
    | .ok rs =>
      match collectLoop fetch dataset_key item_cd rest with
      | .error e => .error e
      | .ok more => .ok (rs ++ more)

/-- `collect`: iterate the planned window and accumulate rows. -/
def collect (fetch : Nat → Nat → Except (List Char) PageT)
    (dataset_key : List Char) (start_ym end_ym : Nat × Nat)
    (item_cd : Option Nat) : Except CErr (List ObsRow) :=
  collectLoop fetch dataset_key item_cd (month_iter start_ym end_ym)

/-- The start period `collect_incremental` computes from the storage
gateway's answer. -/
def planned_start (latest : Option (Nat × Nat)) (default_start : Nat × Nat) :
    Nat × Nat :=
  match latest with
  | none => default_start
  | some p => next_month p.1 p.2

/-- `collect_incremental`: plan the window from the latest persisted period
and run `collect`; `start_ym > end_ym` short-circuits to an empty row list. -/
def collect_incremental (fetch : Nat → Nat → Except (List Char) PageT)
    (dataset_key : List Char) (latest : Option (Nat × Nat))
    (default_start end_ym : Nat × Nat) (item_cd : Option Nat) :
    Except CErr (List ObsRow) :=
  let start_ym := planned_start latest default_start
  if perLe start_ym end_ym then
    collect fetch dataset_key start_ym end_ym item_cd
  else .ok []

/-! ## 7. Period arithmetic used to characterize `month_iter` -/

/-- A calendar period as the data model defines it: month in `[1, 12]`. -/
def validPeriod (p : Nat × Nat) : Prop := 1 ≤ p.2 ∧ p.2 ≤ 12

instance (p : Nat × Nat) : Decidable (validPeriod p) := by
  unfold validPeriod; infer_instance

/-- Linear month index of a period. -/
def idx (p : Nat × Nat) : Nat := p.1 * 12 + (p.2 - 1)

/-- Period of a linear month index. -/
def ofIdx (n : Nat) : Nat × Nat := (n / 12, n % 12 + 1)

lemma ofIdx_idx {p : Nat × Nat} (h : validPeriod p) : ofIdx (idx p) = p := by
  obtain ⟨y, m⟩ := p
  obtain ⟨h1, h2⟩ := h
  simp only [ofIdx, idx, Prod.mk.injEq]
  omega

lemma next_month_valid {p : Nat × Nat} (h : validPeriod p) :
    validPeriod (next_month p.1 p.2) := by
  obtain ⟨y, m⟩ := p
  obtain ⟨h1, h2⟩ := h
  simp only [next_month]
  split
  · simp [validPeriod]
  · simp only [validPeriod]
    omega

lemma idx_next {p : Nat × Nat} (h : validPeriod p) :
    idx (next_month p.1 p.2) = idx p + 1 := by
  obtain ⟨y, m⟩ := p
  obtain ⟨h1, h2⟩ := h
  simp only [next_month]
  split <;> simp [idx] <;> omega

lemma perLe_iff {a b : Nat × Nat} (ha : validPeriod a) (hb : validPeriod b) :
    perLe a b = true ↔ idx a ≤ idx b := by
  obtain ⟨y1, m1⟩ := a
  obtain ⟨y2, m2⟩ := b
  obtain ⟨ha1, ha2⟩ := ha
  obtain ⟨hb1, hb2⟩ := hb
  simp only [perLe, idx, Bool.or_eq_true, Bool.and_eq_true, decide_eq_true_eq]
  omega

lemma month_iter_unfold (s e : Nat × Nat) :
    month_iter s e =
      if perLe s e then s :: month_iter (next_month s.1 s.2) e else [] := by
  rw [month_iter]

lemma month_iter_cons {s e : Nat × Nat} (h : perLe s e = true) :
    month_iter s e = s :: month_iter (next_month s.1 s.2) e := by
  rw [month_iter_unfold]; simp [h]

lemma month_iter_nil {s e : Nat × Nat} (h : perLe s e = false) :
    month_iter s e = [] := by
  rw [month_iter_unfold]; simp [h]

/-- `month_iter` is exactly the arithmetic sequence of consecutive periods
from `s` through `e`. -/
lemma month_iter_eq_range :
    ∀ (n : Nat) (s e : Nat × Nat), validPeriod s → validPeriod e →
      idx e + 1 - idx s = n →
      month_iter s e = (List.range n).map (fun k => ofIdx (idx s + k)) := by
  intro n
  induction n with
  | zero =>
    intro s e hs he h
    rw [month_iter_nil]
    · simp
    · rw [Bool.eq_false_iff]
      intro hc
      rw [perLe_iff hs he] at hc
      omega
  | succ n ih =>
    intro s e hs he h
    rw [month_iter_cons ((perLe_iff hs he).mpr (by omega))]
    rw [ih (next_month s.1 s.2) e (next_month_valid hs) he (by rw [idx_next hs]; omega)]
    rw [List.range_succ_eq_map, List.map_cons, List.map_map]
    congr 1
    · rw [Nat.add_zero, ofIdx_idx hs]
    · apply List.map_congr_left
      intro k _
      simp only [Function.comp_apply, idx_next hs]
      congr 1
      omega

/-! ## 8. Lemmas about `argmax_fst` (the "largest table wins" heuristic) -/

lemma argmax_fst_lt (l : List Nat) (h : l ≠ []) : argmax_fst l < l.length := by
  induction l with
  | nil => exact absurd rfl h
  | cons v rest ih =>
    simp only [argmax_fst, List.length_cons]
    split
    · rename_i hgt
      have hne : rest ≠ [] := by
        intro he
        subst he
        simp [List.getD] at hgt
      have := ih hne
      omega
    · omega

lemma argmax_fst_max (l : List Nat) :
    ∀ j, j < l.length → l.getD j 0 ≤ l.getD (argmax_fst l) 0 := by
  induction l with
  | nil =>
    intro j hj
    simp at hj
  | cons v rest ih =>
    intro j hj
    simp only [argmax_fst]
    split
    · rename_i hgt
      cases j with
      | zero => simpa using le_of_lt hgt
      | succ j =>
        simp only [List.getD_cons_succ]
        exact ih j (by simpa using hj)
    · rename_i hle
      cases j with
      | zero => simp
      | succ j =>
        simp only [List.getD_cons_succ, List.getD_cons_zero]
        have h1 : rest.getD j 0 ≤ rest.getD (argmax_fst rest) 0 :=
          ih j (by simpa using hj)
        omega

lemma argmax_fst_first (l : List Nat) :
    ∀ j, j < argmax_fst l → l.getD j 0 < l.getD (argmax_fst l) 0 := by
  induction l with
  | nil =>
    intro j hj
    simp [argmax_fst] at hj
  | cons v rest ih =>
    intro j hj
    simp only [argmax_fst] at hj ⊢
    split
    · rename_i hgt
      rw [if_pos hgt] at hj
      cases j with
      | zero => simpa using hgt
      | succ j =>
        simp only [List.getD_cons_succ]
        exact ih j (by omega)
    · rename_i hle
      rw [if_neg hle] at hj
      omega

lemma getD_map_trs (l : List TableEl) (j : Nat) (h : j < l.length) :
    (l.map (fun t => t.trs.length)).getD j 0 = (l.getD j dummyTable).trs.length := by
  induction l generalizing j with
  | nil => simp at h
  | cons a rest ih =>
    cases j with
    | zero => simp
    | succ j =>
      simp only [List.map_cons, List.getD_cons_succ]
      exact ih j (by simpa using h)

/-- The map/filter characterization of the per-row alt collection loop. -/
lemma collectAlts_eq (imgs : List Img) :
    collectAlts imgs =
      (imgs.map (fun im => stripL (im.alt.getD []))).filter
        (fun a => decide (a ≠ [])) := by
  induction imgs with
  | nil => rfl
  | cons im rest ih =>
    by_cases h : stripL (im.alt.getD []) = [] <;>
      simp [collectAlts, List.filter_cons, h, ih]

/-! ## 9. Bounds on the scorer -/

lemma stepAt_bound {l : List Char} {sg : Int} {st : Nat}
    (h : stepAt l = some (sg, st)) : st ≤ 9 ∧ (sg = 1 ∨ sg = -1) := by
  unfold stepAt at h
  split at h
  · rename_i c d tail
    split at h
    · rcases hd : digitVal d with _ | v
      · rw [hd] at h
        exact absurd h (by simp)
      · rw [hd] at h
        unfold digitVal at hd
        split at hd
        · injection hd with hv
          injection h with h'
          obtain ⟨hsg, hst⟩ := Prod.mk.injEq .. ▸ h'
          constructor
          · omega
          · split at hsg <;> simp [← hsg]
        · exact absurd hd (by simp)
    · exact absurd h (by simp)
  · exact absurd h (by simp)

lemma findStep_bound {l : List Char} {sg : Int} {st : Nat}
    (h : findStep l = some (sg, st)) : st ≤ 9 ∧ (sg = 1 ∨ sg = -1) := by
  induction l with
  | nil => exact absurd h (by simp [findStep])
  | cons c rest ih =>
    rw [findStep] at h
    rcases hs : stepAt (c :: rest) with _ | r
    · rw [hs] at h
      exact ih h
    · rw [hs] at h
      injection h with h'
      subst h'
      exact stepAt_bound hs

/-- Equation lemma: contraction phase. -/
lemma score_weather_contraction {s : List Char} (hs : s ≠ [])
    (hp : phaseOf (stripSpaces s) = some .contraction) :
    score_weather s =
      some (-((((findStep (stripSpaces s)).getD (0, 0)).2 : Int) + 1)) := by
  rw [score_weather, if_neg hs]
  simp only [hp]

/-- Equation lemma: expansion phase. -/
lemma score_weather_expansion {s : List Char} (hs : s ≠ [])
    (hp : phaseOf (stripSpaces s) = some .expansion) :
    score_weather s =
      some ((((findStep (stripSpaces s)).getD (0, 0)).2 : Int) + 1) := by
  rw [score_weather, if_neg hs]
  simp only [hp]

/-- Equation lemma: stability phase. -/
lemma score_weather_stability {s : List Char} (hs : s ≠ [])
    (hp : phaseOf (stripSpaces s) = some .stability) :
    score_weather s =
      some (((findStep (stripSpaces s)).getD (0, 0)).1 *
        (((findStep (stripSpaces s)).getD (0, 0)).2 : Int)) := by
  rw [score_weather, if_neg hs]
  simp only [hp]

/-- Equation lemma: unrecognized phase. -/
lemma score_weather_unknown {s : List Char}
    (hp : phaseOf (stripSpaces s) = none) : score_weather s = none := by
  by_cases hs : s = []
  · rw [hs]; rfl
  · rw [score_weather, if_neg hs]
    simp only [hp]

/-- Every score the scorer can produce is in `[-10, 10]` (the digit of the
matched pattern is at most 9). -/
lemma score_weather_bound (s : List Char) :
    score_weather s = none ∨
      ∃ k : Int, score_weather s = some k ∧ -10 ≤ k ∧ k ≤ 10 := by
  by_cases hs : s = []
  · left; rw [hs]; rfl
  · rcases hp : phaseOf (stripSpaces s) with _ | ph
    · exact Or.inl (score_weather_unknown hp)
    · right
      have hb : ((findStep (stripSpaces s)).getD (0, 0)).2 ≤ 9 ∧
          (((findStep (stripSpaces s)).getD (0, 0)).1 = 1 ∨
           ((findStep (stripSpaces s)).getD (0, 0)).1 = -1 ∨
           ((findStep (stripSpaces s)).getD (0, 0)).1 = 0) := by
        rcases hf : findStep (stripSpaces s) with _ | ⟨sg, st⟩
        · simp
        · obtain ⟨h9, hsg⟩ := findStep_bound hf
          simp only [Option.getD_some]
          exact ⟨h9, by tauto⟩
      obtain ⟨h9, hsg⟩ := hb
      cases ph
      · exact ⟨_, score_weather_contraction hs hp, by omega, by omega⟩
      · exact ⟨_, score_weather_expansion hs hp, by omega, by omega⟩
      · refine ⟨_, score_weather_stability hs hp, ?_, ?_⟩ <;>
          rcases hsg with h1 | h1 | h1 <;> rw [h1] <;> omega

/-- Every row `collectLoop` can return carries a `weather_score` produced by
`score_weather`. -/
lemma collectLoop_score (fetch : Nat → Nat → Except (List Char) PageT)
    (key : List Char) (i : Option Nat) :
    ∀ (l : List (Nat × Nat)) (rows : List ObsRow),
      collectLoop fetch key i l = .ok rows →
      ∀ r ∈ rows, ∃ t, r.weather_score = score_weather t := by
  intro l
  induction l with
  | nil =>
    intro rows h r hr
    simp only [collectLoop] at h
    injection h with h'
    subst h'
    simp at hr
  | cons ym rest ih =>
    intro rows h r hr
    simp only [collectLoop] at h
    rcases hp : collectPeriod fetch key i ym with e | rs <;> rw [hp] at h
    · exact absurd h (by simp)
    · rcases hrest : collectLoop fetch key i rest with e | more <;> rw [hrest] at h
      · exact absurd h (by simp)
      · injection h with h'
        subst h'
        rcases List.mem_append.mp hr with hin | hin
        · -- r comes from this period's `rowsOf`
          unfold collectPeriod at hp
          rcases hds : DATASETS key with _ | ds <;> rw [hds] at hp <;>
            simp only [] at hp
          · exact absurd hp (by simp)
          · rcases hfe : fetch ym.1 ym.2 with e | page <;> rw [hfe] at hp
            · exact absurd hp (by simp)
            · injection hp with hp'
              subst hp'
              simp only [rowsOf, List.mem_map] at hin
              obtain ⟨e, _, he⟩ := hin
              exact ⟨e.2.1, by rw [← he]⟩
        · exact ih more hrest r hin

/-! ## Claim theorems -/

/-- **C2**: scoring rule.  A contraction-phase descriptor with matched
magnitude `N` scores `-(N+1)`, an expansion-phase one `N+1`, a
stability-phase one `sign * N`; with the pattern absent, `sign = 0` and
`N = 0` apply; empty or unrecognized text yields an absent score; and the
spec's concrete examples hold. -/
theorem C2_scoring_rule :
    (∀ (s : List Char) (sg : Int) (N : Nat),
      phaseOf (stripSpaces s) = some .contraction →
      findStep (stripSpaces s) = some (sg, N) →
      score_weather s = some (-((N : Int) + 1))) ∧
    (∀ (s : List Char) (sg : Int) (N : Nat),
      phaseOf (stripSpaces s) = some .expansion →
      findStep (stripSpaces s) = some (sg, N) →
      score_weather s = some ((N : Int) + 1)) ∧
    (∀ (s : List Char) (sg : Int) (N : Nat),
      phaseOf (stripSpaces s) = some .stability →
      findStep (stripSpaces s) = some (sg, N) →
      score_weather s = some (sg * (N : Int))) ∧
    (∀ s : List Char, phaseOf (stripSpaces s) = some .contraction →
      findStep (stripSpaces s) = none → score_weather s = some (-1)) ∧
    (∀ s : List Char, phaseOf (stripSpaces s) = some .expansion →
      findStep (stripSpaces s) = none → score_weather s = some 1) ∧
    (∀ s : List Char, phaseOf (stripSpaces s) = some .stability →
      findStep (stripSpaces s) = none → score_weather s = some 0) ∧
    (∀ s : List Char, phaseOf (stripSpaces s) = none → score_weather s = none) ∧
    (∀ N : Nat, N ≤ 9 →
      score_weather ('수' :: '축' :: '+' :: Char.ofNat (48 + N) :: '단' :: '계' :: []) =
        some (-((N : Int) + 1)) ∧
      score_weather ('확' :: '장' :: '-' :: Char.ofNat (48 + N) :: '단' :: '계' :: []) =
        some ((N : Int) + 1) ∧
      score_weather ('안' :: '정' :: '+' :: Char.ofNat (48 + N) :: '단' :: '계' :: []) =
        some (N : Int) ∧
      score_weather ('안' :: '정' :: '-' :: Char.ofNat (48 + N) :: '단' :: '계' :: []) =
        some (-(N : Int))) ∧
    score_weather "수축+2단계".toList = some (-3) ∧
    score_weather "확장-1단계".toList = some 2 ∧
    score_weather "안정-2단계".toList = some (-2) ∧
    score_weather "".toList = none := by
  refine ⟨?_, ?_, ?_, ?_, ?_, ?_, ?_, ?_, by decide, by decide, by decide, by decide⟩
  · intro s sg N hp hf
    have hs : s ≠ [] := by intro he; subst he; revert hp; decide
    rw [score_weather_contraction hs hp, hf]; simp
  · intro s sg N hp hf
    have hs : s ≠ [] := by intro he; subst he; revert hp; decide
    rw [score_weather_expansion hs hp, hf]; simp
  · intro s sg N hp hf
    have hs : s ≠ [] := by intro he; subst he; revert hp; decide
    rw [score_weather_stability hs hp, hf]; simp
  · intro s hp hf
    have hs : s ≠ [] := by intro he; subst he; revert hp; decide
    rw [score_weather_contraction hs hp, hf]; simp
  · intro s hp hf
    have hs : s ≠ [] := by intro he; subst he; revert hp; decide
    rw [score_weather_expansion hs hp, hf]; simp
  · intro s hp hf
    have hs : s ≠ [] := by intro he; subst he; revert hp; decide
    rw [score_weather_stability hs hp, hf]; simp
  · exact fun s hp => score_weather_unknown hp
  · intro N hN
    interval_cases N <;> refine ⟨?_, ?_, ?_, ?_⟩ <;> decide

/-- Witness for C2 at the concrete descriptor `수축+2단계`. -/
theorem C2_scoring_rule_witness :
    phaseOf (stripSpaces "수축+2단계".toList) = some .contraction ∧
    findStep (stripSpaces "수축+2단계".toList) = some (1, 2) ∧
    score_weather "수축+2단계".toList = some (-((2 : Int) + 1)) :=
  ⟨by decide, by decide,
    C2_scoring_rule.1 "수축+2단계".toList 1 2 (by decide) (by decide)⟩

/-- **C3 counterexample**: `build_url` does not reject months outside
`1–12` — it builds a complete URL for month 13 and for month 0. -/
theorem C3_counterexample :
    build_url "house_rent".toList 2023 13 none =
      some "https://kremap.krihs.re.kr/menu2/Mind_Rent_Cur?area_cd=11&Gbn=MONTH&year=2023&month=13&item_cd=14".toList ∧
    build_url "house_rent".toList 2023 0 none =
      some "https://kremap.krihs.re.kr/menu2/Mind_Rent_Cur?area_cd=11&Gbn=MONTH&year=2023&month=00&item_cd=14".toList := by
  constructor
  · decide
  · decide

/-- **C3** (amended): `build_url` fails (with a `KeyError`, the spec's
UnknownDatasetError) exactly for unregistered dataset keys, with no partial
URL built; the month is never validated — for a registered key a URL is
built whatever the month. -/
theorem C3_url_validation :
    (∀ (key : List Char) (y m : Nat) (i : Option Nat),
      DATASETS key = none → build_url key y m i = none) ∧
    (∀ (key : List Char) (y m : Nat) (i : Option Nat),
      build_url key y m i = none → DATASETS key = none) ∧
    (∀ (key : List Char) (ds : Dataset) (y m : Nat) (i : Option Nat),
      DATASETS key = some ds → build_url key y m i = some (build_url_ds ds y m i)) := by
  refine ⟨?_, ?_, ?_⟩
  · intro key y m i h
    simp [build_url, h]
  · intro key y m i h
    rcases hds : DATASETS key with _ | ds
    · rfl
    · rw [build_url, hds] at h
      exact absurd h (by simp)
  · intro key ds y m i h
    simp [build_url, h]

/-- Witness for C3 (amended) at an unregistered key. -/
theorem C3_url_validation_witness :
    DATASETS "no_such_dataset".toList = none ∧
    build_url "no_such_dataset".toList 2023 5 none = none :=
  ⟨by decide, C3_url_validation.1 "no_such_dataset".toList 2023 5 none (by decide)⟩

/-- A descriptor the external taxonomy never emits, but on which the scorer
escapes the documented range. -/
def badRow : RowEl :=
  ⟨["종로구".toList, "icon".toList], [⟨some "수축+4단계".toList⟩]⟩

def badPage : PageT := ⟨[⟨"GridView1".toList, [badRow]⟩]⟩

def fetchBad : Nat → Nat → Except (List Char) PageT := fun _ _ => .ok badPage

/-- **C4 counterexample**: the Collector assembles an `ObservationRow` whose
weather score is `-5 ∉ [-4, 4]` (descriptor `수축+4단계`). -/
theorem C4_counterexample :
    (collect fetchBad "house_rent".toList (2024, 1) (2024, 1) none).map
        (fun rows => rows.map (fun r => r.weather_score)) =
      .ok [some (-5)] ∧
    ((-5 : Int) < -4) := by
  constructor
  · have h1 : month_iter (2024, 1) (2024, 1) = [(2024, 1)] := by
      rw [month_iter_cons (by decide), month_iter_nil (by decide)]
    unfold collect
    rw [h1]
    decide
  · decide

/-- **C4** (amended): every weather score the Collector derives is absent or
in `[-10, 10]`; it is further in `[-4, 4]` whenever the matched magnitude is
at most 3 (the documented taxonomy), and when no magnitude pattern matches. -/
theorem C4_score_range :
    (∀ s : List Char, score_weather s = none ∨
      ∃ k : Int, score_weather s = some k ∧ -10 ≤ k ∧ k ≤ 10) ∧
    (∀ (fetch : Nat → Nat → Except (List Char) PageT) (key : List Char)
      (s e : Nat × Nat) (i : Option Nat) (rows : List ObsRow),
      collect fetch key s e i = .ok rows →
      ∀ r ∈ rows, r.weather_score = none ∨
        ∃ k : Int, r.weather_score = some k ∧ -10 ≤ k ∧ k ≤ 10) ∧
    (∀ (s : List Char) (sg : Int) (N : Nat),
      findStep (stripSpaces s) = some (sg, N) → N ≤ 3 →
      score_weather s = none ∨
        ∃ k : Int, score_weather s = some k ∧ -4 ≤ k ∧ k ≤ 4) ∧
    (∀ s : List Char, findStep (stripSpaces s) = none →
      score_weather s = none ∨
        ∃ k : Int, score_weather s = some k ∧ -4 ≤ k ∧ k ≤ 4) := by
  refine ⟨score_weather_bound, ?_, ?_, ?_⟩
  · intro fetch key s e i rows h r hr
    obtain ⟨t, ht⟩ := collectLoop_score fetch key i (month_iter s e) rows h r hr
    rw [ht]
    exact score_weather_bound t
  · intro s sg N hf h3
    by_cases hs : s = []
    · left; rw [hs]; rfl
    · rcases hp : phaseOf (stripSpaces s) with _ | ph
      · exact Or.inl (score_weather_unknown hp)
      · obtain ⟨h9, hsg⟩ := findStep_bound hf
        cases ph
        · right
          refine ⟨-((N : Int) + 1), ?_, by omega, by omega⟩
          rw [score_weather_contraction hs hp, hf]; simp
        · right
          refine ⟨(N : Int) + 1, ?_, by omega, by omega⟩
          rw [score_weather_expansion hs hp, hf]; simp
        · right
          refine ⟨sg * (N : Int), ?_, ?_, ?_⟩
          · rw [score_weather_stability hs hp, hf]; simp
          · rcases hsg with h1 | h1 <;> rw [h1] <;> omega
          · rcases hsg with h1 | h1 <;> rw [h1] <;> omega
  · intro s hf
    by_cases hs : s = []
    · left; rw [hs]; rfl
    · rcases hp : phaseOf (stripSpaces s) with _ | ph
      · exact Or.inl (score_weather_unknown hp)
      · cases ph
        · right
          refine ⟨-1, ?_, by omega, by omega⟩
          rw [score_weather_contraction hs hp, hf]; simp
        · right
          refine ⟨1, ?_, by omega, by omega⟩
          rw [score_weather_expansion hs hp, hf]; simp
        · right
          refine ⟨0, ?_, by omega, by omega⟩
          rw [score_weather_stability hs hp, hf]; simp

/-- Witness for C4 (amended) at the descriptor `안정-2단계`. -/
theorem C4_score_range_witness :
    findStep (stripSpaces "안정-2단계".toList) = some (-1, 2) ∧
    (score_weather "안정-2단계".toList = none ∨
      ∃ k : Int, score_weather "안정-2단계".toList = some k ∧ -4 ≤ k ∧ k ≤ 4) :=
  ⟨by decide,
    C4_score_range.2.2.1 "안정-2단계".toList (-1) 2 (by decide) (by decide)⟩

/-- **C7 counterexample**: for the top-level composite dataset the
`jin=Jindan` marker precedes `item_cd`, so the claimed exact shape
`…&item_cd=<code>&jin=Jindan` is not what `build_url` returns. -/
theorem C7_counterexample :
    build_url "market_consume".toList 2023 4 none ≠
      some "https://kremap.krihs.re.kr/menu2/SystemIntro?area_cd=11&Gbn=MONTH&year=2023&month=04&item_cd=2&jin=Jindan".toList ∧
    build_url "market_consume".toList 2023 4 none =
      some "https://kremap.krihs.re.kr/menu2/SystemIntro?area_cd=11&Gbn=MONTH&year=2023&month=04&jin=Jindan&item_cd=2".toList := by
  constructor
  · decide
  · decide

/-- **C7** (amended): for every registered dataset key, valid or not month,
and optional override, `build_url` deterministically returns
`<base>/<path>?area_cd=11&Gbn=MONTH&year=<Y>&month=<MM>[&jin=Jindan]&item_cd=<code>`
with the marker present exactly for the composite dataset (before `item_cd`),
and the item code equal to the override when given and non-zero, else the
dataset default. -/
theorem C7_url_shape :
    (∀ (y m : Nat) (i : Option Nat),
      build_url "market_consume".toList y m i =
        some ("https://kremap.krihs.re.kr/menu2/SystemIntro?area_cd=11&Gbn=MONTH&year=".toList ++
          (natToStr y ++ ("&month=".toList ++ (pad2 m ++
            ("&jin=Jindan&item_cd=".toList ++ natToStr (itemOr i 2))))))) ∧
    (∀ (y m : Nat) (i : Option Nat),
      build_url "house_consume".toList y m i =
        some ("https://kremap.krihs.re.kr/menu2/Mind_House?area_cd=11&Gbn=MONTH&year=".toList ++
          (natToStr y ++ ("&month=".toList ++ (pad2 m ++
            ("&item_cd=".toList ++ natToStr (itemOr i 7))))))) ∧
    (∀ (y m : Nat) (i : Option Nat),
      build_url "house_sale".toList y m i =
        some ("https://kremap.krihs.re.kr/menu2/Mind_House_Cur?area_cd=11&Gbn=MONTH&year=".toList ++
          (natToStr y ++ ("&month=".toList ++ (pad2 m ++
            ("&item_cd=".toList ++ natToStr (itemOr i 12))))))) ∧
    (∀ (y m : Nat) (i : Option Nat),
      build_url "house_rent".toList y m i =
        some ("https://kremap.krihs.re.kr/menu2/Mind_Rent_Cur?area_cd=11&Gbn=MONTH&year=".toList ++
          (natToStr y ++ ("&month=".toList ++ (pad2 m ++
            ("&item_cd=".toList ++ natToStr (itemOr i 14))))))) ∧
    (∀ (y m : Nat) (i : Option Nat),
      build_url "land_consume".toList y m i =
        some ("https://kremap.krihs.re.kr/menu2/Mind_Land?area_cd=11&Gbn=MONTH&year=".toList ++
          (natToStr y ++ ("&month=".toList ++ (pad2 m ++
            ("&item_cd=".toList ++ natToStr (itemOr i 6))))))) ∧
    build_url "house_rent".toList 2023 4 none =
      some "https://kremap.krihs.re.kr/menu2/Mind_Rent_Cur?area_cd=11&Gbn=MONTH&year=2023&month=04&item_cd=14".toList := by
  refine ⟨fun y m i => rfl, fun y m i => rfl, fun y m i => rfl, fun y m i => rfl,
    fun y m i => rfl, by decide⟩

/-- Synthetic pages for the extraction claims. -/
def table3 : TableEl := ⟨"GridView_small".toList, List.replicate 3 ⟨[], []⟩⟩

def table40 : TableEl := ⟨"GridView_big".toList, List.replicate 40 ⟨[], []⟩⟩

def page2 : PageT := ⟨[table3, table40]⟩

def pageNoGrid : PageT := ⟨[⟨"layoutTable".toList, List.replicate 5 ⟨[], []⟩⟩]⟩

/-- **C8**: among the candidate tables, the one with the most rows is
selected, ties broken by first-seen order; the 3-row/40-row page selects the
40-row table; no candidate table yields an empty mapping, not an error. -/
theorem C8_table_selection :
    (∀ p : PageT, candidates p = [] → parse_table_icons p = []) ∧
    (∀ p : PageT, candidates p ≠ [] →
      selIdx p < (candidates p).length ∧
      parse_table_icons p =
        parse_rows ((candidates p).getD (selIdx p) dummyTable).trs [] ∧
      (∀ j, j < (candidates p).length →
        ((candidates p).getD j dummyTable).trs.length ≤
          ((candidates p).getD (selIdx p) dummyTable).trs.length) ∧
      (∀ j, j < selIdx p →
        ((candidates p).getD j dummyTable).trs.length <
          ((candidates p).getD (selIdx p) dummyTable).trs.length)) ∧
    parse_table_icons page2 = parse_rows table40.trs [] ∧
    selIdx page2 = 1 ∧
    parse_table_icons pageNoGrid = [] := by
  refine ⟨?_, ?_, by decide, by decide, by decide⟩
  · intro p h
    unfold parse_table_icons
    rw [if_pos h]
  · intro p h
    have hlm : (candidates p).map (fun t => t.trs.length) ≠ [] := by
      simpa using h
    have hlt := argmax_fst_lt _ hlm
    rw [List.length_map] at hlt
    refine ⟨hlt, ?_, ?_, ?_⟩
    · unfold parse_table_icons
      rw [if_neg h]
    · intro j hj
      have hmax := argmax_fst_max ((candidates p).map (fun t => t.trs.length)) j
        (by rw [List.length_map]; exact hj)
      rw [getD_map_trs _ _ hj, getD_map_trs _ _ hlt] at hmax
      exact hmax
    · intro j hj
      have hj' : j < argmax_fst ((candidates p).map (fun t => t.trs.length)) := hj
      have hjlen : j < (candidates p).length := lt_trans hj' hlt
      have hfst := argmax_fst_first ((candidates p).map (fun t => t.trs.length)) j hj'
      rw [getD_map_trs _ _ hjlen, getD_map_trs _ _ hlt] at hfst
      exact hfst

/-- Witness for C8 on the two synthetic pages. -/
theorem C8_table_selection_witness :
    (candidates pageNoGrid = [] ∧ parse_table_icons pageNoGrid = []) ∧
    (candidates page2 ≠ [] ∧
      selIdx page2 < (candidates page2).length ∧
      parse_table_icons page2 =
        parse_rows ((candidates page2).getD (selIdx page2) dummyTable).trs [] ∧
      (∀ j, j < (candidates page2).length →
        ((candidates page2).getD j dummyTable).trs.length ≤
          ((candidates page2).getD (selIdx page2) dummyTable).trs.length) ∧
      (∀ j, j < selIdx page2 →
        ((candidates page2).getD j dummyTable).trs.length <
          ((candidates page2).getD (selIdx page2) dummyTable).trs.length)) :=
  ⟨⟨by decide, C8_table_selection.1 pageNoGrid (by decide)⟩,
   ⟨by decide, C8_table_selection.2.1 page2 (by decide)⟩⟩

/-- A synthetic data row: two cells, a mapped region name, one icon. -/
def demoRow : RowEl := ⟨["마포구".toList, "x".toList], [⟨some "맑음".toList⟩]⟩

/-- **C9**: rows with fewer than two cells, an empty region cell, or the
header caption are skipped; the non-empty alt texts are collected in
document order; the first is the weather descriptor, the last the
month-over-month descriptor when at least two exist, else it is empty. -/
theorem C9_row_extraction :
    (∀ (r : RowEl) (rest : List RowEl) (d : List (List Char × (List Char × List Char))),
      r.tds.length < 2 → parse_rows (r :: rest) d = parse_rows rest d) ∧
    (∀ (r : RowEl) (rest : List RowEl) (d : List (List Char × (List Char × List Char))),
      2 ≤ r.tds.length →
      (stripL (r.tds.headD []) = [] ∨ stripL (r.tds.headD []) = "지역명".toList) →
      parse_rows (r :: rest) d = parse_rows rest d) ∧
    (∀ (r : RowEl) (rest : List RowEl) (d : List (List Char × (List Char × List Char))),
      2 ≤ r.tds.length →
      stripL (r.tds.headD []) ≠ [] → stripL (r.tds.headD []) ≠ "지역명".toList →
      parse_rows (r :: rest) d =
        parse_rows rest
          (dictInsert (stripL (r.tds.headD [])) (weatherOf r.imgs, momOf r.imgs) d)) ∧
    (∀ imgs : List Img, collectAlts imgs =
      (imgs.map (fun im => stripL (im.alt.getD []))).filter (fun a => decide (a ≠ []))) ∧
    (∀ imgs : List Img, weatherOf imgs = (collectAlts imgs).headD []) ∧
    (∀ imgs : List Img, (collectAlts imgs).length = 1 → momOf imgs = []) ∧
    (∀ imgs : List Img, 2 ≤ (collectAlts imgs).length →
      momOf imgs = (collectAlts imgs).getLastD []) := by
  refine ⟨?_, ?_, ?_, collectAlts_eq, fun imgs => rfl, ?_, ?_⟩
  · intro r rest d h
    rw [parse_rows, if_pos h]
  · intro r rest d h2 hreg
    rw [parse_rows, if_neg (by omega), if_pos hreg]
  · intro r rest d h2 hne hnh
    rw [parse_rows, if_neg (by omega), if_neg (not_or.mpr ⟨hne, hnh⟩)]
  · intro imgs h
    rw [momOf, if_neg (by omega)]
  · intro imgs h
    rw [momOf, if_pos h]

/-- Witness for C9 on a concrete single-icon row: the row is emitted and its
month-over-month descriptor is empty. -/
theorem C9_row_extraction_witness :
    (2 ≤ demoRow.tds.length ∧
      stripL (demoRow.tds.headD []) ≠ [] ∧
      stripL (demoRow.tds.headD []) ≠ "지역명".toList ∧
      parse_rows [demoRow] [] =
        parse_rows []
          (dictInsert (stripL (demoRow.tds.headD []))
            (weatherOf demoRow.imgs, momOf demoRow.imgs) [])) ∧
    ((collectAlts demoRow.imgs).length = 1 ∧ momOf demoRow.imgs = []) :=
  ⟨⟨by decide, by decide, by decide,
      C9_row_extraction.2.2.1 demoRow [] [] (by decide) (by decide) (by decide)⟩,
   ⟨by decide, C9_row_extraction.2.2.2.2.2.1 demoRow.imgs (by decide)⟩⟩

/-- `item_cd or …` ignores a zero override at the `collectPeriod` level. -/
lemma collectPeriod_item_zero (fetch : Nat → Nat → Except (List Char) PageT)
    (key : List Char) (ym : Nat × Nat) :
    collectPeriod fetch key (some 0) ym = collectPeriod fetch key none ym := rfl

lemma collectLoop_item_zero (fetch : Nat → Nat → Except (List Char) PageT)
    (key : List Char) :
    ∀ l, collectLoop fetch key (some 0) l = collectLoop fetch key none l := by
  intro l
  induction l with
  | nil => rfl
  | cons ym rest ih =>
    rw [collectLoop, collectLoop, ih, collectPeriod_item_zero]

/-- **C10**: an item-code override of `0` is ignored — `build_url`,
`collect` and `collect_incremental` behave exactly as if no override were
passed, because the override is tested for truthiness. -/
theorem C10_zero_item_override :
    (∀ (key : List Char) (y m : Nat),
      build_url key y m (some 0) = build_url key y m none) ∧
    (∀ (fetch : Nat → Nat → Except (List Char) PageT) (key : List Char)
      (s e : Nat × Nat),
      collect fetch key s e (some 0) = collect fetch key s e none) ∧
    (∀ (fetch : Nat → Nat → Except (List Char) PageT) (key : List Char)
      (latest : Option (Nat × Nat)) (dstart e : Nat × Nat),
      collect_incremental fetch key latest dstart e (some 0) =
        collect_incremental fetch key latest dstart e none) := by
  refine ⟨fun key y m => rfl, ?_, ?_⟩
  · intro fetch key s e
    unfold collect
    exact collectLoop_item_zero fetch key _
  · intro fetch key latest dstart e
    simp only [collect_incremental]
    by_cases h : perLe (planned_start latest dstart) e = true
    · rw [if_pos h, if_pos h]
      unfold collect
      exact collectLoop_item_zero fetch key _
    · rw [if_neg h, if_neg h]

/-- An empty rendered page (no tables at all). -/
def emptyPage : PageT := ⟨[]⟩

/-- A fetch function whose rendering times out exactly at period 2024-01. -/
def fetchTimeout : Nat → Nat → Except (List Char) PageT := fun y m =>
  if y = 2024 ∧ m = 1 then .error "Timeout 60000ms exceeded".toList
  else .ok emptyPage

/-- **C1 counterexample**: a rendering failure at the first period of the
window [(2024,1), (2024,2)] aborts the whole run with that error — the
second period is never processed and no row list is returned, contradicting
per-period failure isolation. -/
theorem C1_counterexample :
    collect fetchTimeout "house_rent".toList (2024, 1) (2024, 2) none =
      .error (.fetchError "Timeout 60000ms exceeded".toList) := by
  unfold collect
  rw [month_iter_cons (by decide)]
  decide

/-- **C1** (amended): an exception while processing one period (a fetch or
rendering failure, or the `KeyError` of an unknown dataset) propagates out
of the loop and aborts the run — the `try`/`finally` block has no `except`
clause; only an *empty extraction* for one period is failure-isolated: it
contributes zero rows and the loop proceeds to the next period. -/
theorem C1_error_propagation :
    (∀ (fetch : Nat → Nat → Except (List Char) PageT) (key : List Char)
      (i : Option Nat) (ym : Nat × Nat) (rest : List (Nat × Nat)) (e : CErr),
      collectPeriod fetch key i ym = .error e →
      collectLoop fetch key i (ym :: rest) = .error e) ∧
    (∀ (fetch : Nat → Nat → Except (List Char) PageT) (key : List Char)
      (i : Option Nat) (ym : Nat × Nat) (rest : List (Nat × Nat)) (page : PageT),
      (DATASETS key).isSome = true → fetch ym.1 ym.2 = .ok page →
      parse_table_icons page = [] →
      collectLoop fetch key i (ym :: rest) = collectLoop fetch key i rest) ∧
    (∀ (fetch : Nat → Nat → Except (List Char) PageT) (key : List Char)
      (i : Option Nat) (ym : Nat × Nat) (rest : List (Nat × Nat)),
      DATASETS key = none →
      collectLoop fetch key i (ym :: rest) = .error .keyError) ∧
    (∀ (fetch : Nat → Nat → Except (List Char) PageT) (key : List Char)
      (s e : Nat × Nat) (i : Option Nat),
      collect fetch key s e i = collectLoop fetch key i (month_iter s e)) := by
  refine ⟨?_, ?_, ?_, fun fetch key s e i => rfl⟩
  · intro fetch key i ym rest e h
    rw [collectLoop, h]
  · intro fetch key i ym rest page hds hfetch hparse
    rw [Option.isSome_iff_exists] at hds
    obtain ⟨ds, hds⟩ := hds
    have hp : collectPeriod fetch key i ym = .ok [] := by
      simp only [collectPeriod, hds, hfetch, hparse, rowsOf, List.map_nil]
    rw [collectLoop, hp]
    rcases hr : collectLoop fetch key i rest with e | more <;> simp [hr]
  · intro fetch key i ym rest h
    have hp : collectPeriod fetch key i ym = .error .keyError := by
      simp only [collectPeriod, h]
    rw [collectLoop, hp]

/-- Witness for C1 (amended): the timing-out first period makes the whole
two-period loop return its error. -/
theorem C1_error_propagation_witness :
    collectPeriod fetchTimeout "house_rent".toList none (2024, 1) =
      .error (.fetchError "Timeout 60000ms exceeded".toList) ∧
    collectLoop fetchTimeout "house_rent".toList none [(2024, 1), (2024, 2)] =
      .error (.fetchError "Timeout 60000ms exceeded".toList) :=
  ⟨by decide,
    C1_error_propagation.1 fetchTimeout "house_rent".toList none (2024, 1)
      [(2024, 2)] (.fetchError "Timeout 60000ms exceeded".toList) (by decide)⟩

/-- **C5**: incremental planning.  No prior period → window `[default, end]`;
prior period `P` → window `[successor P, end]`; computed start after the end
→ empty window, no fetch, empty row list, normal termination. -/
theorem C5_incremental_planner :
    (∀ (fetch : Nat → Nat → Except (List Char) PageT) (key : List Char)
      (dstart e : Nat × Nat) (i : Option Nat),
      collect_incremental fetch key none dstart e i =
        collect fetch key dstart e i) ∧
    (∀ (fetch : Nat → Nat → Except (List Char) PageT) (key : List Char)
      (P : Nat × Nat) (dstart e : Nat × Nat) (i : Option Nat),
      collect_incremental fetch key (some P) dstart e i =
        collect fetch key (next_month P.1 P.2) e i) ∧
    (∀ (fetch : Nat → Nat → Except (List Char) PageT) (key : List Char)
      (latest : Option (Nat × Nat)) (dstart e : Nat × Nat) (i : Option Nat),
      perLe (planned_start latest dstart) e = false →
      collect_incremental fetch key latest dstart e i = .ok [] ∧
      month_iter (planned_start latest dstart) e = []) ∧
    (∀ (f g : Nat → Nat → Except (List Char) PageT) (key : List Char)
      (latest : Option (Nat × Nat)) (dstart e : Nat × Nat) (i : Option Nat),
      perLe (planned_start latest dstart) e = false →
      collect_incremental f key latest dstart e i =
        collect_incremental g key latest dstart e i) := by
  refine ⟨?_, ?_, ?_, ?_⟩
  · intro fetch key dstart e i
    simp only [collect_incremental, planned_start]
    by_cases h : perLe dstart e = true
    · rw [if_pos h]
    · rw [if_neg h]
      unfold collect
      rw [month_iter_nil (by simpa using h)]
      rfl
  · intro fetch key P dstart e i
    simp only [collect_incremental, planned_start]
    by_cases h : perLe (next_month P.1 P.2) e = true
    · rw [if_pos h]
    · rw [if_neg h]
      unfold collect
      rw [month_iter_nil (by simpa using h)]
      rfl
  · intro fetch key latest dstart e i h
    constructor
    · simp only [collect_incremental]
      rw [if_neg (by simp [h])]
    · exact month_iter_nil h
  · intro f g key latest dstart e i h
    simp only [collect_incremental]
    rw [if_neg (by simp [h]), if_neg (by simp [h])]

/-- Witness for C5: a dataset already collected through the end period plans
an empty window and returns no rows. -/
theorem C5_incremental_planner_witness :
    perLe (planned_start (some (2025, 9)) (2015, 1)) (2025, 9) = false ∧
    collect_incremental fetchBad "house_rent".toList (some (2025, 9)) (2015, 1)
      (2025, 9) none = .ok [] ∧
    month_iter (planned_start (some (2025, 9)) (2015, 1)) (2025, 9) = [] := by
  refine ⟨by decide, ?_, ?_⟩
  · exact (C5_incremental_planner.2.2.1 fetchBad "house_rent".toList
      (some (2025, 9)) (2015, 1) (2025, 9) none (by decide)).1
  · exact (C5_incremental_planner.2.2.1 fetchBad "house_rent".toList
      (some (2025, 9)) (2015, 1) (2025, 9) none (by decide)).2

/-- **C6**: `month_iter s e` is the ascending sequence of consecutive
calendar periods from `s` through `e` inclusive (for months in `[1, 12]`),
empty when `s > e`, and `next_month` rolls the year forward exactly when the
month passes 12. -/
theorem C6_period_sequencing :
    (∀ s e : Nat × Nat, validPeriod s → validPeriod e →
      month_iter s e =
        (List.range (idx e + 1 - idx s)).map (fun k => ofIdx (idx s + k))) ∧
    (∀ s e : Nat × Nat, perLe s e = false → month_iter s e = []) ∧
    next_month 2024 12 = (2025, 1) ∧
    next_month 2024 5 = (2024, 6) ∧
    month_iter (2024, 11) (2025, 2) =
      [(2024, 11), (2024, 12), (2025, 1), (2025, 2)] := by
  refine ⟨?_, ?_, by decide, by decide, ?_⟩
  · exact fun s e hs he => month_iter_eq_range (idx e + 1 - idx s) s e hs he rfl
  · exact fun s e h => month_iter_nil h
  · rw [month_iter_cons (by decide), month_iter_cons (by decide),
        month_iter_cons (by decide), month_iter_cons (by decide),
        month_iter_nil (by decide)]
    decide

/-- Witness for C6 at the spec's concrete example window. -/
theorem C6_period_sequencing_witness :
    validPeriod (2024, 11) ∧ validPeriod (2025, 2) ∧
    month_iter (2024, 11) (2025, 2) =
      (List.range (idx (2025, 2) + 1 - idx (2024, 11))).map
        (fun k => ofIdx (idx (2024, 11) + k)) :=
  ⟨by decide, by decide,
    C6_period_sequencing.1 (2024, 11) (2025, 2) (by decide) (by decide)⟩
